import Mathlib

/-!
Verification of the log-analysis hybrid anomaly-detection core.

This file gives a shallow embedding, in Lean 4, of the three core Python
modules of the repository:

  * `python-ai/src/core/log_preprocessor.py`   (Feature Extractor)
  * `python-ai/src/core/anomaly_detector.py`   (Rule Scorer, Outlier Model
    wrapper, Detector Combiner)
  * `python-ai/src/core/root_cause_analyzer.py` (Root-Cause Classifier)

Modelling conventions:

  * Python strings are `String`; `str.upper` / `str.lower` are modelled by
    mapping `Char.toUpper` / `Char.toLower` over the characters (the code
    operates on ASCII keywords and level labels).
  * Python floats are modelled by `ℚ`; the constants involved (0.1 … 0.9)
    and the comparisons made on them are exact at the granularity the code
    uses them.
  * A Python `dict` log record is a structure.  A `none` in the
    `level` field models a JSON-null level value (on which `.upper()`
    raises `AttributeError`); a `none` in the `timestamp` field models a
    missing `'timestamp'` key (on which `log['timestamp']` raises
    `KeyError`).  Fallible code returns `Except Unit`.
  * Library calls that leave the pure fragment (CPython's process-seeded
    `hash`, the real-valued Shannon-entropy sum, `datetime` parsing, and
    the `re.findall` pattern harvesting) are abstracted as oracle
    parameters collected in `PyOracles`; every theorem quantifies over
    them.  The scikit-learn isolation-forest path of the detector is
    likewise abstracted as a state-transforming oracle (`MLOracle`), and
    the regex category matcher of the root-cause analyzer as a
    match-scoring oracle; all theorems hold for every behaviour of these
    oracles.
-/

/-! ## Python string primitives -/

/-- Model of Python `str.upper` (ASCII letters, as `Char.toUpper`). -/
def pyUpper (s : String) : String := String.mk (s.data.map Char.toUpper)

/-- Model of Python `str.lower` (ASCII letters, as `Char.toLower`). -/
def pyLower (s : String) : String := String.mk (s.data.map Char.toLower)

/-- Substring occurrence on character lists: does `needle` occur
contiguously inside the second list?  (Model of Python `needle in s`.) -/
def hasSubstr (needle : List Char) : List Char → Bool
  | [] => needle.isEmpty
  | c :: rest => needle.isPrefixOf (c :: rest) || hasSubstr needle rest

/-- Model of the Python membership test `pat in s` on strings. -/
def strContains (s pat : String) : Bool := hasSubstr pat.data s.data

/-- Python whitespace class (`\s`, and the default `str.strip` /
`str.split` separators), restricted to ASCII. -/
def pyWs (c : Char) : Bool :=
  c = ' ' || c = '\t' || c = '\n' || c = '\r' || c = '\x0b' || c = '\x0c'

/-- Strip leading and trailing whitespace (Python `str.strip`). -/
def pyStrip (l : List Char) : List Char :=
  ((l.dropWhile pyWs).reverse.dropWhile pyWs).reverse

/-- Collapse every maximal whitespace run to a single space
(`re.sub(r'\s+', ' ', ·)`).  The boolean records whether the previous
character was part of a whitespace run. -/
def collapseWsAux : Bool → List Char → List Char
  | _, [] => []
  | inRun, c :: rest =>
    if pyWs c then
      (if inRun then [] else [' ']) ++ collapseWsAux true rest
    else
      c :: collapseWsAux false rest

/-- Number of whitespace-separated words (Python `len(s.split())`).  The
boolean records whether the previous character belonged to a word. -/
def countWordsAux : Bool → List Char → Nat
  | _, [] => 0
  | inWord, c :: rest =>
    if pyWs c then countWordsAux false rest
    else (if inWord then 0 else 1) + countWordsAux true rest

/-! ### Hand-rolled matchers for the fixed regexes of the code

The code applies `re.search` with a handful of fixed patterns built from
digit runs, literal alternations and word boundaries (`\b`).  These are
matched here by direct character scanning with the same acceptance
condition as the regexes. -/

/-- Python regex word character (`\w`, ASCII fragment). -/
def isWordChar (c : Char) : Bool := c.isAlphanum || c = '_'

/-- Split a maximal leading digit run off a character list, returning its
length and the remainder. -/
def splitDigits : List Char → Nat × List Char
  | [] => (0, [])
  | c :: rest =>
    if c.isDigit then
      let p := splitDigits rest
      (p.1 + 1, p.2)
    else (0, c :: rest)

/-- Word boundary `\b` before a match that starts with a word character:
satisfied at the string start or after a non-word character. -/
def boundaryBefore : Option Char → Bool
  | none => true
  | some c => !isWordChar c

/-- Word boundary `\b` after a match that ends with a word character:
satisfied at the string end or before a non-word character. -/
def boundaryAfter : List Char → Bool
  | [] => true
  | c :: _ => !isWordChar c

/-- Match one `\d+\.` group (unbounded digit run followed by a literal
dot) at the front of the list, returning the remainder on success. -/
def digitsDot : List Char → Option (List Char) :=
  fun l =>
    let p := splitDigits l
    if p.1 ≥ 1 then
      match p.2 with
      | '.' :: r2 => some r2
      | _ => none
    else none

/-- Match one `\d{1,3}\.` group at the front of the list.  Because the
digit run is maximal, the regex (with backtracking) succeeds iff the run
has length 1–3 and is followed by a dot. -/
def digits13Dot : List Char → Option (List Char) :=
  fun l =>
    let p := splitDigits l
    if 1 ≤ p.1 && p.1 ≤ 3 then
      match p.2 with
      | '.' :: r2 => some r2
      | _ => none
    else none

/-- Acceptance of `\d+\.\d+\.\d+\.\d+\b` at the current position. -/
def ipUnboundedAt (l : List Char) : Bool :=
  match digitsDot l with
  | none => false
  | some r1 =>
    match digitsDot r1 with
    | none => false
    | some r2 =>
      match digitsDot r2 with
      | none => false
      | some r3 =>
        let p := splitDigits r3
        p.1 ≥ 1 && boundaryAfter p.2

/-- Acceptance of `\d{1,3}\.\d{1,3}\.\d{1,3}\.\d{1,3}\b` at the current
position. -/
def ipBoundedAt (l : List Char) : Bool :=
  match digits13Dot l with
  | none => false
  | some r1 =>
    match digits13Dot r1 with
    | none => false
    | some r2 =>
      match digits13Dot r2 with
      | none => false
      | some r3 =>
        let p := splitDigits r3
        (1 ≤ p.1 && p.1 ≤ 3) && boundaryAfter p.2

/-- Model of `re.search(r'\b\d+\.\d+\.\d+\.\d+\b', s)` as used for the
`has_ip_address` feature: scan every position carrying the previous
character for the leading word boundary. -/
def scanIpUnbounded : Option Char → List Char → Bool
  | _, [] => false
  | prev, c :: rest =>
    (boundaryBefore prev && ipUnboundedAt (c :: rest)) ||
      scanIpUnbounded (some c) rest

/-- Model of `re.search(r'\b\d{1,3}\.\d{1,3}\.\d{1,3}\.\d{1,3}\b', s)` as
used by `_analyze_context`. -/
def scanIpBounded : Option Char → List Char → Bool
  | _, [] => false
  | prev, c :: rest =>
    (boundaryBefore prev && ipBoundedAt (c :: rest)) ||
      scanIpBounded (some c) rest

/-- Acceptance of `\d{2}:\d{2}:\d{2}` at the current position. -/
def timeAt : List Char → Bool
  | d1 :: d2 :: c1 :: d3 :: d4 :: c2 :: d5 :: d6 :: _ =>
    d1.isDigit && d2.isDigit && c1 = ':' && d3.isDigit && d4.isDigit &&
      c2 = ':' && d5.isDigit && d6.isDigit
  | _ => false

/-- Model of `re.search(r'\d{2}:\d{2}:\d{2}', s)` for `has_timestamp`. -/
def scanTime : List Char → Bool
  | [] => false
  | c :: rest => timeAt (c :: rest) || scanTime rest

/-- The HTTP status codes of `_analyze_context`'s regex
`\b(404|500|503|502|401|403)\b`. -/
def httpCodes : List (List Char) :=
  [['4', '0', '4'], ['5', '0', '0'], ['5', '0', '3'], ['5', '0', '2'],
   ['4', '0', '1'], ['4', '0', '3']]

/-- Acceptance of one status-code alternative at the current position,
including the trailing word boundary. -/
def httpCodeAt (l : List Char) : Bool :=
  httpCodes.any (fun code => code.isPrefixOf l && boundaryAfter (l.drop code.length))

/-- Model of `re.search(r'\b(404|500|503|502|401|403)\b', s)`. -/
def scanHttpCode : Option Char → List Char → Bool
  | _, [] => false
  | prev, c :: rest =>
    (boundaryBefore prev && httpCodeAt (c :: rest)) ||
      scanHttpCode (some c) rest

namespace LogPreprocessor

/-! ## Data model: `log_preprocessor.py` -/

/-- An incoming log record (the `dict` received by the core).
`level = none` models a JSON-null level value; `timestamp = none` models
a missing `'timestamp'` key. -/
structure LogRecord where
  id : String := ""
  timestamp : Option String := some ""
  level : Option String := some ""
  message : String := ""
  source : String := ""
deriving DecidableEq, Repr

/-- The feature dictionary built by
`LogPreprocessor._extract_enhanced_features`.  Fields that a fallback
record's dictionary omits are read downstream through `.get` with a
0 / `False` default, so the structure is total and the fallback stores
those defaults.  `upper_frac` and `digit_frac` embed the source's
`uppercase_ratio` and `numeric_ratio` entries. -/
structure Features where
  message_length : Nat := 0
  word_count : Nat := 0
  level_numeric : Nat := 0
  has_error_keywords : Bool := false
  has_warning_keywords : Bool := false
  has_numbers : Bool := false
  has_special_chars : Bool := false
  source_hash : Int := 0
  critical_keyword_count : Nat := 0
  error_pattern_score : ℚ := 0
  stack_trace_indicator : ℚ := 0
  is_error_level : Bool := false
  message_entropy : ℚ := 0
  has_ip_address : Bool := false
  has_timestamp : Bool := false
  upper_frac : ℚ := 0
  digit_frac : ℚ := 0
deriving DecidableEq, Repr

/-- A processed log record (`log.copy()` plus the derived keys). -/
structure ProcessedLog where
  id : String := ""
  timestamp : Option String := some ""
  level : Option String := some ""
  message : String := ""
  source : String := ""
  cleaned_message : String := ""
  features : Features := {}
  normalized_timestamp : String := ""
  patterns : List String := []
deriving DecidableEq, Repr

/-- Oracle parameters for the library calls that leave the pure fragment:
CPython's process-seeded `hash`, the real-valued Shannon-entropy sum of
`_calculate_message_entropy` (before the `/5` normalisation), `datetime`
timestamp parsing, and the `re.findall` harvesting of
`_extract_patterns`.  Every theorem below quantifies over these. -/
structure PyOracles where
  pyHash : String → Int
  rawEntropy : String → ℚ
  normalizeTimestamp : String → String
  findPatterns : String → List String

/-- A concrete oracle instance used for closed (witness) statements. -/
def oracleZero : PyOracles :=
  { pyHash := fun _ => 0
    rawEntropy := fun _ => 0
    normalizeTimestamp := fun t => t
    findPatterns := fun _ => [] }

/-! ## Keyword tables of `log_preprocessor.py` -/

/-- The `critical_keywords` list of `LogPreprocessor.__init__`
(16 entries). -/
def critical_keywords : List String :=
  ["panic", "crash", "segmentation fault", "out of memory",
   "connection refused", "timeout", "failed", "exception",
   "critical", "fatal", "abort", "denied", "null pointer",
   "stack overflow", "access denied", "permission denied"]

/-- The keyword list of `LogPreprocessor._has_error_keywords`. -/
def error_keywords : List String :=
  ["error", "exception", "failed", "failure", "crash", "fatal",
   "critical", "panic", "abort", "timeout", "refused", "denied",
   "null pointer", "segmentation fault", "out of memory", "stack overflow"]

/-- The keyword list of `LogPreprocessor._has_warning_keywords`. -/
def warning_keywords : List String :=
  ["warning", "warn", "deprecated", "slow", "retry", "fallback",
   "degraded", "limited", "throttled", "temporary", "disabled"]

/-- The per-keyword weights of
`LogPreprocessor._calculate_error_pattern_score`. -/
def error_pattern_weights : List (String × ℚ) :=
  [("connection", 0.3), ("timeout", 0.4), ("failed", 0.2), ("error", 0.1),
   ("exception", 0.3), ("crash", 0.5), ("panic", 0.6), ("fatal", 0.5),
   ("critical", 0.4)]

/-- The marker list of `LogPreprocessor._detect_stack_trace`. -/
def stack_indicators : List String :=
  ["at ", "in ", "line ", "file ", ".java:", ".py:", ".cpp:",
   "stacktrace", "traceback", "caused by"]

/-- The character class of the `has_special_chars` regex
`[!@#$%^&*(),.?":\x7b\x7d|<>]`. -/
def special_chars : List Char :=
  ['!', '@', '#', '$', '%', '^', '&', '*', '(', ')', ',', '.', '?', '\"',
   ':', '\x7b', '\x7d', '|', '<', '>']

/-! ## Functions of `log_preprocessor.py` -/

/-- Embeds `LogPreprocessor._clean_message`: strip, collapse whitespace
runs to single spaces, remove control characters. -/
def clean_message (message : String) : String :=
  if message = ("") then ("")
  else
    String.mk (((collapseWsAux false (pyStrip message.data)).filter
      (fun c => !(c.toNat ≤ 0x1f || (0x7f ≤ c.toNat && c.toNat ≤ 0x9f)))))

/-- Embeds `LogPreprocessor._level_to_numeric` (the `level_map` lookup on
the upper-cased level). -/
def level_to_numeric (level : String) : Nat :=
  let u := pyUpper level
  if u == ("DEBUG") then 1
  else if u == ("INFO") then 2
  else if u == ("WARN") then 4
  else if u == ("WARNING") then 4
  else if u == ("ERROR") then 8
  else if u == ("FATAL") then 10
  else if u == ("CRITICAL") then 10
  else 0

/-- Embeds `LogPreprocessor._has_error_keywords`. -/
def has_error_keywords_fn (message : String) : Bool :=
  let ml := pyLower message
  error_keywords.any (fun k => strContains ml k)

/-- Embeds `LogPreprocessor._has_warning_keywords`. -/
def has_warning_keywords_fn (message : String) : Bool :=
  let ml := pyLower message
  warning_keywords.any (fun k => strContains ml k)

/-- Embeds `LogPreprocessor._count_critical_keywords` (each keyword
counted at most once per message). -/
def count_critical_keywords (message : String) : Nat :=
  let ml := pyLower message
  critical_keywords.foldl (fun count k => if strContains ml k then count + 1 else count) 0

/-- Embeds `LogPreprocessor._calculate_error_pattern_score`. -/
def calculate_error_pattern_score (message : String) : ℚ :=
  let ml := pyLower message
  min (error_pattern_weights.foldl
        (fun score p => if strContains ml p.1 then score + p.2 else score) 0) 1

/-- Embeds `LogPreprocessor._detect_stack_trace`. -/
def detect_stack_trace (message : String) : ℚ :=
  let ml := pyLower message
  min (((stack_indicators.countP (fun i => strContains ml i) : ℚ)) / 3) 1

/-- Embeds `LogPreprocessor._calculate_message_entropy`; the Shannon sum
itself (a real-logarithm computation) is the `rawEntropy` oracle. -/
def calculate_message_entropy (ora : PyOracles) (message : String) : ℚ :=
  if message = ("") then 0 else min (ora.rawEntropy message / 5) 1

/-- Embeds the `uppercase_ratio` computation
(`_calculate_uppercase_ratio`). -/
def calculate_upper_frac (message : String) : ℚ :=
  if message = ("") then 0
  else ((message.data.countP Char.isUpper : ℚ)) / ((message.length : ℚ))

/-- Embeds the `numeric_ratio` computation
(`_calculate_numeric_ratio`). -/
def calculate_digit_frac (message : String) : ℚ :=
  if message = ("") then 0
  else ((message.data.countP Char.isDigit : ℚ)) / ((message.length : ℚ))

/-- Embeds `LogPreprocessor._extract_enhanced_features`.  Fails (as the
Python raises) iff the record's level value is null, since the code
calls `.upper()` on it. -/
def extract_enhanced_features (ora : PyOracles) (log : LogRecord) :
    Except Unit Features :=
  match log.level with
  | none => Except.error ()
  | some lv =>
    let message := log.message
    let level := pyUpper lv
    Except.ok
      { message_length := message.length
        word_count := countWordsAux false message.data
        level_numeric := level_to_numeric level
        has_error_keywords := has_error_keywords_fn message
        has_warning_keywords := has_warning_keywords_fn message
        has_numbers := message.data.any Char.isDigit
        has_special_chars := message.data.any (fun c => special_chars.contains c)
        source_hash := (ora.pyHash log.source).emod 1000
        critical_keyword_count := count_critical_keywords message
        error_pattern_score := calculate_error_pattern_score message
        stack_trace_indicator := detect_stack_trace message
        is_error_level := level == ("ERROR") || level == ("FATAL") || level == ("CRITICAL")
        message_entropy := calculate_message_entropy ora message
        has_ip_address := scanIpUnbounded none message.data
        has_timestamp := scanTime message.data
        upper_frac := calculate_upper_frac message
        digit_frac := calculate_digit_frac message }

/-- Embeds `LogPreprocessor._process_single_log`.  The copied record is
extended with the cleaned message, the feature dictionary, the
normalised timestamp and the harvested patterns.  It fails iff the level
value is null (the `.upper()` inside feature extraction raises) or the
`'timestamp'` key is missing (`log['timestamp']` raises). -/
def process_single_log (ora : PyOracles) (log : LogRecord) :
    Except Unit ProcessedLog :=
  let cleaned := clean_message log.message
  match extract_enhanced_features ora log with
  | Except.error e => Except.error e
  | Except.ok feats =>
    match log.timestamp with
    | none => Except.error ()
    | some ts =>
      Except.ok
        { id := log.id
          timestamp := log.timestamp
          level := log.level
          message := log.message
          source := log.source
          cleaned_message := cleaned
          features := feats
          normalized_timestamp := ora.normalizeTimestamp ts
          patterns := ora.findPatterns log.message }

/-- Embeds `LogPreprocessor._create_fallback_log`.  The fallback feature
dictionary stores only nine keys; the remaining `Features` fields hold
the 0 / `false` defaults that downstream `.get` calls read for the
missing keys.  It fails iff the level value is null, because
`_level_to_numeric` calls `.upper()` on it. -/
def create_fallback_log (log : LogRecord) : Except Unit ProcessedLog :=
  match log.level with
  | none => Except.error ()
  | some lv =>
    Except.ok
      { id := log.id
        timestamp := log.timestamp
        level := log.level
        message := log.message
        source := log.source
        cleaned_message := log.message
        features :=
          { message_length := log.message.length
            level_numeric := level_to_numeric lv
            has_error_keywords := false
            has_warning_keywords := false
            critical_keyword_count := 0
            error_pattern_score := 0
            stack_trace_indicator := 0
            is_error_level := false
            message_entropy := 0 }
        normalized_timestamp := (log.timestamp).getD ("")
        patterns := [] }

/-- Embeds `LogPreprocessor.process`: each record is processed
individually; a record whose processing raises is replaced by its
fallback.  If building the fallback itself raises (null level), the
exception escapes `process`, which the `Except` result records. -/
def process (ora : PyOracles) : List LogRecord → Except Unit (List ProcessedLog)
  | [] => Except.ok []
  | log :: rest =>
    match (match process_single_log ora log with
           | Except.ok p => Except.ok p
           | Except.error _ => create_fallback_log log) with
    | Except.error e => Except.error e
    | Except.ok p =>
      match process ora rest with
      | Except.error e => Except.error e
      | Except.ok ps => Except.ok (p :: ps)

end LogPreprocessor

namespace AnomalyDetector

open LogPreprocessor

/-! ## Data model: `anomaly_detector.py` -/

/-- The `is_anomaly` / `scores` pair returned by the detector
(`Dict[str, List]` in the source, two parallel lists). -/
structure DetectResult where
  is_anomaly : List Bool := []
  scores : List ℚ := []
deriving DecidableEq, Repr

/-- The mutable state of the detector: the isolation-forest model, the
standard scaler and the `is_fitted` flag.  The scikit-learn model and
scaler objects are abstract type parameters. -/
structure DetectorState (M S : Type) where
  model : M
  scaler : S
  is_fitted : Bool

/-- Oracle for `AnomalyDetector._ml_based_detection`: the scikit-learn
isolation-forest path (feature matrix extraction, lazy fitting with its
state mutation, prediction and score normalisation) abstracted as one
state-transforming function.  Its internal exception handler makes the
Python method total, so the oracle is total as well, and every theorem
below quantifies over it. -/
def MLOracle (M S : Type) : Type :=
  DetectorState M S → List ProcessedLog → DetectResult × DetectorState M S

/-! ## Rule Scorer -/

/-- The `critical_keywords` list local to rule 2 of
`AnomalyDetector._rule_based_detection` (12 entries — unlike the
16-entry list of the preprocessor, it has no `null pointer`,
`stack overflow`, `access denied` or `permission denied`). -/
def rule_critical_keywords : List String :=
  ["panic", "crash", "segmentation fault", "out of memory",
   "connection refused", "timeout", "failed", "exception",
   "critical", "fatal", "abort", "denied"]

/-- The `error_patterns` list of
`AnomalyDetector._is_frequent_error_pattern`. -/
def frequent_error_patterns : List String :=
  ["connection refused", "timeout", "out of memory", "segmentation fault",
   "null pointer", "stack overflow", "access denied", "permission denied",
   "file not found", "network unreachable"]

/-- Embeds `AnomalyDetector._is_frequent_error_pattern`. -/
def is_frequent_error_pattern (message : String) : Bool :=
  let ml := pyLower message
  frequent_error_patterns.any (fun pattern => strContains ml pattern)

/-- The weighted critical-keyword sum of rule 2: `0.2` added per keyword
of `rule_critical_keywords` contained in the (lower-cased) message. -/
def rule_critical_score (messageLower : String) : ℚ :=
  rule_critical_keywords.foldl
    (fun score k => if strContains messageLower k then score + 0.2 else score) 0

/-- Embeds the loop body of `AnomalyDetector._rule_based_detection` for
one record whose level value is the string `rawLevel`: the five-rule
decision list, first match wins, with the `(False, 0.1)` default. -/
def rule_detect_one (rawLevel message : String) (features : Features) : Bool × ℚ :=
  let level := pyUpper rawLevel
  let ml := pyLower message
  if level == ("ERROR") || level == ("FATAL") || level == ("CRITICAL") then
    (true, 0.8)
  else if rule_critical_score ml ≥ 0.4 then
    (true, min 0.9 (0.5 + rule_critical_score ml))
  else if level == ("WARN") && features.has_error_keywords then
    (true, 0.6)
  else if features.message_length > 1000 then
    (true, 0.5)
  else if is_frequent_error_pattern message then
    (true, 0.7)
  else
    (false, 0.1)

/-- The per-record loop of `_rule_based_detection` over the batch,
collecting the verdict/score pairs; it raises (as `.upper()` does) at
the first record whose level value is null. -/
def rule_loop : List ProcessedLog → Except Unit (List (Bool × ℚ))
  | [] => Except.ok []
  | log :: rest =>
    match log.level with
    | none => Except.error ()
    | some lv =>
      match rule_loop rest with
      | Except.error e => Except.error e
      | Except.ok tail =>
        Except.ok (rule_detect_one lv log.message log.features :: tail)

/-- Embeds `AnomalyDetector._rule_based_detection`: the source appends to
the two parallel lists inside one loop; here the collected pairs are
split into the two lists. -/
def rule_based_detection (logs : List ProcessedLog) : Except Unit DetectResult :=
  match rule_loop logs with
  | Except.error e => Except.error e
  | Except.ok pairs =>
    Except.ok { is_anomaly := pairs.map Prod.fst, scores := pairs.map Prod.snd }

/-! ## Detector Combiner -/

/-- The merge of one index of `AnomalyDetector._combine_results`,
including the `False` / `0.0` defaults the source substitutes when the
ML lists are shorter than the rule lists. -/
def combine_at (rule_results ml_results : DetectResult) (i : Nat) : Bool × ℚ :=
  let rule_anomaly := rule_results.is_anomaly.getD i false
  let rule_score := rule_results.scores.getD i 0
  let ml_anomaly :=
    if i < ml_results.is_anomaly.length then ml_results.is_anomaly.getD i false else false
  let ml_score :=
    if i < ml_results.scores.length then ml_results.scores.getD i 0 else 0.0
  if rule_anomaly then
    (true, max rule_score ml_score)
  else if ml_anomaly && ml_score > 0.7 then
    (true, ml_score)
  else
    (false, min rule_score ml_score)

/-- Embeds `AnomalyDetector._combine_results`: one merged entry per index
of the rule-result lists. -/
def combine_results (rule_results ml_results : DetectResult) : DetectResult :=
  { is_anomaly :=
      (List.range rule_results.is_anomaly.length).map
        (fun i => (combine_at rule_results ml_results i).1)
    scores :=
      (List.range rule_results.is_anomaly.length).map
        (fun i => (combine_at rule_results ml_results i).2) }

/-- Embeds `AnomalyDetector._get_default_results`. -/
def get_default_results (num_logs : Nat) : DetectResult :=
  { is_anomaly := List.replicate num_logs false
    scores := List.replicate num_logs 0.0 }

/-- Embeds `AnomalyDetector.detect_anomalies`: empty batches return the
empty result at once (before any rule or ML work); otherwise the rule
pass runs first, then the ML oracle, then the combiner.  The method's
`try/except` turns a rule-pass exception (null level) into the default
all-normal result — the ML oracle never runs in that case, so the state
is returned unchanged. -/
def detect_anomalies {M S : Type} (ml : MLOracle M S) (st : DetectorState M S)
    (processed_logs : List ProcessedLog) : DetectResult × DetectorState M S :=
  if processed_logs.isEmpty then
    ({ is_anomaly := [], scores := [] }, st)
  else
    match rule_based_detection processed_logs with
    | Except.error _ => (get_default_results processed_logs.length, st)
    | Except.ok rule_results =>
      let mlOut := ml st processed_logs
      (combine_results rule_results mlOut.1, mlOut.2)

end AnomalyDetector

namespace RootCauseAnalyzer

open LogPreprocessor

/-! ## Data model: `root_cause_analyzer.py` -/

/-- The result dictionary of `RootCauseAnalyzer.analyze`. -/
structure RCResult where
  root_causes : List String := []
  recommendations : List String := []
deriving DecidableEq, Repr

/-- The generic result returned by the `except` handler of
`RootCauseAnalyzer.analyze`. -/
def genericPair : RCResult :=
  { root_causes := ["Unknown error occurred"]
    recommendations := ["Review log details and system status"] }

/-- The six keys of the `error_patterns` category table, in declaration
order. -/
inductive ErrCat
  | database
  | network
  | memory
  | authentication
  | performance
  | application
deriving DecidableEq, Repr

/-- The `root_causes` lists of the `error_patterns` table. -/
def catRootCauses : ErrCat → List String
  | ErrCat.database =>
    ["Database connection timeout", "Database server unavailable",
     "SQL query error", "Database deadlock", "Connection pool exhausted",
     "Database schema issue", "Data integrity violation"]
  | ErrCat.network =>
    ["Network connectivity issue", "Connection reset by peer",
     "Host unreachable", "Network timeout", "DNS resolution failure",
     "SSL/TLS certificate issue", "Firewall blocking connection"]
  | ErrCat.memory =>
    ["Memory exhaustion", "Memory leak detected", "Heap space insufficient",
     "Stack overflow", "Garbage collection overhead"]
  | ErrCat.authentication =>
    ["Authentication failure", "Unauthorized access attempt",
     "Invalid credentials provided", "Expired authentication token",
     "Insufficient permissions"]
  | ErrCat.performance =>
    ["Slow database query", "Response time exceeded threshold",
     "Performance degradation", "High CPU utilization",
     "Thread pool exhaustion", "Resource contention", "System overload"]
  | ErrCat.application =>
    ["Null pointer dereference", "Array bounds violation",
     "Missing class or dependency", "Method signature mismatch",
     "Invalid input parameters", "Runtime assertion failure",
     "Data validation error"]

/-- The `recommendations` lists of the `error_patterns` table. -/
def catRecommendations : ErrCat → List String
  | ErrCat.database =>
    ["Check database connectivity and network",
     "Increase connection timeout settings",
     "Review and optimize SQL queries",
     "Monitor database performance metrics",
     "Scale database connection pool",
     "Verify database schema and migrations",
     "Review data validation logic"]
  | ErrCat.network =>
    ["Check network connectivity",
     "Verify firewall and security group settings",
     "Test DNS resolution", "Monitor network latency",
     "Implement retry mechanisms with backoff",
     "Verify SSL/TLS certificates",
     "Check proxy and load balancer configuration"]
  | ErrCat.memory =>
    ["Increase memory allocation",
     "Profile application for memory leaks",
     "Optimize data structures and algorithms",
     "Review recursive function calls",
     "Tune garbage collection parameters"]
  | ErrCat.authentication =>
    ["Verify user credentials", "Check authentication service status",
     "Review access control policies",
     "Implement token refresh mechanism",
     "Monitor for suspicious access patterns"]
  | ErrCat.performance =>
    ["Optimize database queries and indexes", "Scale application resources",
     "Implement caching strategies", "Monitor system resource usage",
     "Tune thread pool configuration", "Review algorithm efficiency",
     "Implement load balancing"]
  | ErrCat.application =>
    ["Add null checks and defensive programming",
     "Validate array bounds before access",
     "Verify classpath and dependencies",
     "Check method signatures and versions",
     "Implement input validation",
     "Review business logic assertions",
     "Strengthen data validation rules"]

/-- Oracle for `RootCauseAnalyzer._match_error_patterns_with_score`: the
regex category matcher (Python `re.search` over the per-category pattern
lists, with the match-quality score and the final descending sort) is
abstracted as a function of the lower-cased message.  Every theorem
below quantifies over it. -/
def MatchOracle : Type := String → List (ErrCat × ℚ)

/-- The `num_items` selection of `RootCauseAnalyzer.analyze`:
3 causes/recommendations for a category score above 0.7, 2 above 0.5,
otherwise 1. -/
def num_items (score : ℚ) : Nat :=
  if score > 0.7 then 3 else if score > 0.5 then 2 else 1

/-- Embeds `RootCauseAnalyzer._get_generic_error_causes` (the message
received is the already lower-cased one, as at the call site). -/
def get_generic_error_causes (message : String) : List String :=
  let l :=
    (if strContains message ("failed") then [("Operation failed to complete" : String)] else []) ++
    (if strContains message ("exception") then [("Unhandled exception occurred" : String)] else []) ++
    (if strContains message ("error") then [("System error detected" : String)] else [])
  if l.isEmpty then ["Unexpected system behavior"] else l

/-- Embeds `RootCauseAnalyzer._get_generic_error_recommendations`. -/
def get_generic_error_recommendations : List String :=
  ["Check system logs for additional context",
   "Verify system resources and dependencies",
   "Review recent changes and deployments"]

/-- The `error_keyword_map` of `RootCauseAnalyzer._analyze_error_keywords`
in declaration order. -/
def error_keyword_map : List (String × String) :=
  [("timeout", "Request timeout occurred"),
   ("refused", "Connection refused by target"),
   ("denied", "Access or permission denied"),
   ("crash", "Application crash detected"),
   ("panic", "System panic condition"),
   ("abort", "Operation aborted unexpectedly")]

/-- Embeds `RootCauseAnalyzer._analyze_error_keywords`. -/
def analyze_error_keywords (message : String) : List String :=
  error_keyword_map.foldl
    (fun acc p => if strContains message p.1 then acc ++ [p.2] else acc) []

/-- One entry of the `source_patterns` table of
`RootCauseAnalyzer._analyze_by_source`. -/
structure SourceGroup where
  name : String
  keywords : List String
  causes : List String
  recommendations : List String
deriving DecidableEq, Repr

/-- The `source_patterns` table, in declaration order
(auth, database, payment, api). -/
def source_patterns : List SourceGroup :=
  [{ name := "auth"
     keywords := ["auth", "login", "user", "session"]
     causes := ["Authentication service issue", "User session problem"]
     recommendations := ["Check authentication service health",
                         "Verify user session management"] },
   { name := "database"
     keywords := ["db", "sql", "postgres", "mysql", "mongo"]
     causes := ["Database service issue", "Data access problem"]
     recommendations := ["Monitor database performance",
                         "Check database connections"] },
   { name := "payment"
     keywords := ["payment", "billing", "transaction", "stripe"]
     causes := ["Payment processing issue", "Transaction failure"]
     recommendations := ["Check payment gateway status",
                         "Verify transaction logs"] },
   { name := "api"
     keywords := ["api", "gateway", "proxy", "endpoint"]
     causes := ["API service issue", "Gateway problem"]
     recommendations := ["Check API gateway health",
                         "Verify endpoint availability"] }]

/-- The membership test of one group: some keyword occurs in the
lower-cased source or in the lower-cased message. -/
def group_matches (g : SourceGroup) (sourceLower messageLower : String) : Bool :=
  g.keywords.any (fun k => strContains sourceLower k) ||
    g.keywords.any (fun k => strContains messageLower k)

/-- The `for service_type, config in source_patterns.items()` loop of
`_analyze_by_source`, returning on the first matching group. -/
def analyze_by_source_loop (sourceLower messageLower : String) :
    List SourceGroup → Option (List String × List String)
  | [] => none
  | g :: rest =>
    if group_matches g sourceLower messageLower then
      some (g.causes, g.recommendations)
    else
      analyze_by_source_loop sourceLower messageLower rest

/-- Embeds `RootCauseAnalyzer._analyze_by_source` (`none` models the
falsy empty dictionary returned when no group matches). -/
def analyze_by_source (source message : String) :
    Option (List String × List String) :=
  analyze_by_source_loop (pyLower source) (pyLower message) source_patterns

/-- Embeds `RootCauseAnalyzer._analyze_context`; `message` is the
lower-cased raw message, recomputed identically at the start of the
source function.  `none` models the falsy empty dictionary returned
when no contextual cause was found. -/
def analyze_context (message : String) (features : Features) :
    Option (List String × List String) :=
  let lenPart : List String × List String :=
    if features.message_length > 1000 then
      (["Verbose error message indicates complex issue"],
       ["Review detailed error context"])
    else if features.message_length < 10 then
      (["Minimal error information available"],
       ["Enable more detailed logging"])
    else ([], [])
  let structPart : List String × List String :=
    if features.has_special_chars &&
        (['[', ']', '\x7b', '\x7d'].any (fun c => message.data.contains c)) then
      (["Structured data parsing issue"],
       ["Verify data format and parsing logic"])
    else ([], [])
  let numPart : List String × List String :=
    if features.has_numbers then
      (if scanHttpCode none message.data then
        (["HTTP status code error"], ["Check HTTP service and routing"])
      else if scanIpBounded none message.data then
        (["Network address related issue"], ["Verify network configuration"])
      else ([], []))
    else ([], [])
  let causes := lenPart.1 ++ structPart.1 ++ numPart.1
  let recs := lenPart.2 ++ structPart.2 ++ numPart.2
  if causes.isEmpty then none else some (causes, recs)

/-- Model of `list(dict.fromkeys(l))`: deduplicate keeping the first
occurrence of every string, preserving order; `seen` accumulates the
strings already emitted. -/
def dedupFirstAux (seen : List String) : List String → List String
  | [] => []
  | x :: xs =>
    if seen.contains x then dedupFirstAux seen xs
    else x :: dedupFirstAux (x :: seen) xs

/-- Deduplication keeping first occurrences (`list(dict.fromkeys(·))`). -/
def dedupFirst (l : List String) : List String := dedupFirstAux [] l

/-- The pipeline of `RootCauseAnalyzer.analyze` after the
analysis-worthiness gate: category matches (through the regex oracle's
output `matched`), level-based generic causes, keyword causes,
source-affinity causes, contextual causes, then deduplication and the
cap at 4 entries.  `message` is lower-cased and `level` upper-cased, as
computed at the top of the source method. -/
def analyze_body (matched : List (ErrCat × ℚ)) (message level source : String)
    (features : Features) : RCResult :=
  let catCauses := matched.foldl
    (fun acc p => acc ++ (catRootCauses p.1).take (num_items p.2)) []
  let catRecs := matched.foldl
    (fun acc p => acc ++ (catRecommendations p.1).take (num_items p.2)) []
  let isErrLevel := level == ("ERROR") || level == ("FATAL") || level == ("CRITICAL")
  let causes1 := if isErrLevel && catCauses.isEmpty then
      catCauses ++ get_generic_error_causes message else catCauses
  let recs1 := if isErrLevel && catCauses.isEmpty then
      catRecs ++ get_generic_error_recommendations else catRecs
  let causes2 := if features.has_error_keywords then
      causes1 ++ analyze_error_keywords message else causes1
  let srcPart := analyze_by_source source message
  let causes3 := match srcPart with
    | some pr => causes2 ++ pr.1
    | none => causes2
  let recs3 := match srcPart with
    | some pr => recs1 ++ pr.2
    | none => recs1
  let ctxPart := analyze_context message features
  let causes4 := match ctxPart with
    | some pr => causes3 ++ pr.1
    | none => causes3
  let recs4 := match ctxPart with
    | some pr => recs3 ++ pr.2
    | none => recs3
  { root_causes := (dedupFirst causes4).take 4
    recommendations := (dedupFirst recs4).take 4 }

/-- Embeds the `try` body of `RootCauseAnalyzer.analyze`: lower-case the
message, upper-case the level (raising on a null level value), apply the
analysis-worthiness gate, then run the pipeline.  The analyzer reads the
processed record only for its feature dictionary, which is the
`features` argument. -/
def analyzeCore (γ : MatchOracle) (log : LogRecord) (features : Features) :
    Except Unit RCResult :=
  let message := pyLower log.message
  match log.level with
  | none => Except.error ()
  | some lv =>
    let level := pyUpper lv
    if (level == ("ERROR") || level == ("FATAL") || level == ("CRITICAL")) ||
        features.has_error_keywords then
      Except.ok (analyze_body (γ message) message level log.source features)
    else
      Except.ok { root_causes := [], recommendations := [] }

/-- Embeds `RootCauseAnalyzer.analyze` including its exception handler:
any exception inside the pipeline yields the generic cause /
recommendation pair instead of propagating. -/
def analyze (γ : MatchOracle) (log : LogRecord) (features : Features) : RCResult :=
  match analyzeCore γ log features with
  | Except.ok r => r
  | Except.error _ => genericPair

end RootCauseAnalyzer

open LogPreprocessor AnomalyDetector RootCauseAnalyzer

/-! ## Specification-side definitions

These mirror the words of the specification (not the code) and exist to
be compared with the embedded code. -/

/-- The combiner merge rule as the specification states it, as a pure
function of the four per-index values. -/
def combinerSpec (rule_anomaly : Bool) (rule_score : ℚ)
    (ml_anomaly : Bool) (ml_score : ℚ) : Bool × ℚ :=
  if rule_anomaly then (true, max rule_score ml_score)
  else if ml_anomaly && ml_score > 0.7 then (true, ml_score)
  else (false, min rule_score ml_score)

/-- The 16-entry critical-keyword list that the specification attributes
to rule 2 of the Rule Scorer (it is the preprocessor's list; the code's
rule 2 uses12-entry `rule_critical_keywords`). -/
def spec_rule2_keywords : List String :=
  ["panic", "crash", "segmentation fault", "out of memory",
   "connection refused", "timeout", "failed", "exception",
   "critical", "fatal", "abort", "denied", "null pointer",
   "stack overflow", "access denied", "permission denied"]

/-- The weighted count of rule 2 as the specification states it: 0.2 per
keyword of the 16-entry list contained in the lower-cased message. -/
def spec_rule2_weighted_count (messageLower : String) : ℚ :=
  spec_rule2_keywords.foldl
    (fun score k => if strContains messageLower k then score + 0.2 else score) 0

/-- The source-affinity lookup as the specification states it: the first
group, in declared order, with any keyword present in the source or the
message contributes its pair; otherwise nothing. -/
def spec_source_affinity (source message : String) :
    Option (List String × List String) :=
  (source_patterns.find?
      (fun g => group_matches g (pyLower source) (pyLower message))).map
    (fun g => (g.causes, g.recommendations))

/-! ## Helper lemmas -/

theorem char_toNat_ofNat {n : Nat} (h : n.isValidChar) :
    (Char.ofNat n).toNat = n := by
  rw [Char.ofNat, dif_pos h]
  rfl

theorem charToUpper_idem (c : Char) : c.toUpper.toUpper = c.toUpper := by
  unfold Char.toUpper
  by_cases h : c.toNat ≥ 97 ∧ c.toNat ≤ 122
  · rw [if_pos h]
    have hv : (Char.ofNat (c.toNat - 32)).toNat = c.toNat - 32 :=
      char_toNat_ofNat (Or.inl (by omega))
    rw [if_neg (by omega)]
  · rw [if_neg h, if_neg h]

theorem pyUpper_idem (s : String) : pyUpper (pyUpper s) = pyUpper s := by
  simp [pyUpper, List.map_map, Function.comp_def, charToUpper_idem]

theorem getD_map_range {α : Type} (n i : Nat) (f : Nat → α) (d : α) (h : i < n) :
    ((List.range n).map f).getD i d = f i := by
  simp [List.getD_eq_getElem?_getD, List.getElem?_map, List.getElem?_range, h]

theorem getD_of_ge {α : Type} (l : List α) (i : Nat) (d : α)
    (h : l.length ≤ i) : l.getD i d = d := by
  simp [List.getD_eq_getElem?_getD, List.getElem?_eq_none h]

theorem combine_at_eq_spec (rr mlr : DetectResult) (i : Nat) :
    combine_at rr mlr i =
      combinerSpec (rr.is_anomaly.getD i false) (rr.scores.getD i 0)
        (mlr.is_anomaly.getD i false) (mlr.scores.getD i 0) := by
  have e1 : (if i < mlr.is_anomaly.length then mlr.is_anomaly.getD i false else false) =
      mlr.is_anomaly.getD i false := by
    split
    · rfl
    · rw [getD_of_ge _ _ _ (by omega)]
  have e2 : (if i < mlr.scores.length then mlr.scores.getD i 0 else (0.0 : ℚ)) =
      mlr.scores.getD i 0 := by
    split
    · rfl
    · rw [getD_of_ge _ _ _ (by omega)]
      norm_num
  simp only [combine_at, combinerSpec, e1, e2]

/-! ## Claim C1: the Detector Combiner merge rule -/

/-- Claim C1: for every index of a batch the combiner merges the rule
result and the ML result as a pure function of the four per-index values
(rule verdict first; ML promotes only above 0.7; otherwise the minimum),
and in particular rule=(false, 0.1), ml=(true, 0.85) gives (true, 0.85)
while rule=(false, 0.1), ml=(true, 0.5) gives (false, 0.1). -/
theorem combiner_merges_pointwise :
    (∀ (rr mlr : DetectResult) (i : Nat),
      i < rr.is_anomaly.length →
      ((combine_results rr mlr).is_anomaly.getD i false,
        (combine_results rr mlr).scores.getD i 0) =
        combinerSpec (rr.is_anomaly.getD i false) (rr.scores.getD i 0)
          (mlr.is_anomaly.getD i false) (mlr.scores.getD i 0)) ∧
    combine_results { is_anomaly := [false], scores := [0.1] }
        { is_anomaly := [true], scores := [0.85] } =
      { is_anomaly := [true], scores := [0.85] } ∧
    combine_results { is_anomaly := [false], scores := [0.1] }
        { is_anomaly := [true], scores := [0.5] } =
      { is_anomaly := [false], scores := [0.1] } := by
  refine ⟨?_, by simp [combine_results, combine_at, List.range_succ]; norm_num,
    by simp [combine_results, combine_at, List.range_succ]; norm_num⟩
  intro rr mlr i h
  unfold combine_results
  rw [getD_map_range _ _ _ _ h, getD_map_range _ _ _ _ h, combine_at_eq_spec]

/-- Witness for C1 at a concrete index. -/
theorem combiner_merges_pointwise_witness :
    (0 < ([false] : List Bool).length) ∧
    ((combine_results { is_anomaly := [false], scores := [0.1] }
        { is_anomaly := [true], scores := [0.85] }).is_anomaly.getD 0 false,
      (combine_results { is_anomaly := [false], scores := [0.1] }
        { is_anomaly := [true], scores := [0.85] }).scores.getD 0 0) =
      combinerSpec false 0.1 true 0.85 :=
  ⟨by decide,
    combiner_merges_pointwise.1 { is_anomaly := [false], scores := [0.1] }
      { is_anomaly := [true], scores := [0.85] } 0 (by decide)⟩

/-! ## Claim C2: rule 1 of the Rule Scorer -/

/-- Claim C2: a record whose upper-cased level is ERROR, FATAL or
CRITICAL is marked anomalous with score exactly 0.8 by the Rule Scorer,
regardless of message content or features — rule 1 fires first and no
later rule of the decision list is evaluated. -/
theorem rule1_error_levels (rawLevel message : String) (features : Features)
    (h : pyUpper rawLevel = ("ERROR") ∨ pyUpper rawLevel = ("FATAL") ∨
      pyUpper rawLevel = ("CRITICAL")) :
    rule_detect_one rawLevel message features = (true, 0.8) := by
  rcases h with h | h | h <;> simp [rule_detect_one, h]

/-- Witness for C2: a lower-case `error` level and a message full of
critical keywords with an over-long length still yield (true, 0.8). -/
theorem rule1_error_levels_witness :
    (pyUpper ("error") = ("ERROR") ∨ pyUpper ("error") = ("FATAL") ∨
      pyUpper ("error") = ("CRITICAL")) ∧
    rule_detect_one ("error") ("panic crash timeout failed")
      { message_length := 2000 } = (true, 0.8) :=
  ⟨Or.inl (by decide),
    rule1_error_levels ("error") ("panic crash timeout failed")
      { message_length := 2000 } (Or.inl (by decide))⟩

/-! ## Claim C3: rule 2 of the Rule Scorer -/

/-- Counterexample to C3 as stated: the claim's 16-entry keyword list
gives the INFO-level message `null pointer stack overflow` a weighted
count of 0.4, so the claim demands rule 2 to fire with score
min(0.9, 0.5 + 0.4) = 0.9; but the code's rule 2 uses its own 12-entry
list, under which the weighted count is 0, and the record instead falls
through to rule 5 (frequent error pattern) with score 0.7. -/
theorem rule2_keyword_set_counterexample :
    spec_rule2_weighted_count (pyLower ("null pointer stack overflow")) = 0.4 ∧
    pyUpper ("INFO") ≠ ("ERROR") ∧ pyUpper ("INFO") ≠ ("FATAL") ∧
    pyUpper ("INFO") ≠ ("CRITICAL") ∧
    rule_detect_one ("INFO") ("null pointer stack overflow") {} = (true, 0.7) ∧
    min (0.9 : ℚ)
      (0.5 + spec_rule2_weighted_count (pyLower ("null pointer stack overflow"))) = 0.9 ∧
    (0.7 : ℚ) ≠ 0.9 := by
  norm_num +decide [spec_rule2_weighted_count, spec_rule2_keywords,
    rule_detect_one, rule_critical_score, rule_critical_keywords,
    is_frequent_error_pattern, frequent_error_patterns, List.foldl]

/-- Claim C3 as amended: rule 2's weighted count is 0.2 per matched
keyword of the detector's own 12-entry critical-keyword list (without
`null pointer`, `stack overflow`, `access denied`, `permission denied`),
each counted at most once against the lower-cased message; when a record
is not matched by rule 1 and that weighted count is ≥ 0.4, the Rule
Scorer returns anomaly=true with score min(0.9, 0.5 + weighted count). -/
theorem rule2_weighted_count (rawLevel message : String) (features : Features)
    (h1 : pyUpper rawLevel ≠ ("ERROR")) (h2 : pyUpper rawLevel ≠ ("FATAL"))
    (h3 : pyUpper rawLevel ≠ ("CRITICAL"))
    (h4 : rule_critical_score (pyLower message) ≥ 0.4) :
    rule_detect_one rawLevel message features =
      (true, min 0.9 (0.5 + rule_critical_score (pyLower message))) := by
  have b1 : (pyUpper rawLevel == ("ERROR")) = false := beq_eq_false_iff_ne.mpr h1
  have b2 : (pyUpper rawLevel == ("FATAL")) = false := beq_eq_false_iff_ne.mpr h2
  have b3 : (pyUpper rawLevel == ("CRITICAL")) = false := beq_eq_false_iff_ne.mpr h3
  simp [rule_detect_one, b1, b2, b3, h4]

/-- Witness for C3 (amended) on the spec's scenario 3: an INFO-level
message containing `panic` and `crash` scores min(0.9, 0.5+0.4) = 0.9. -/
theorem rule2_weighted_count_witness :
    (pyUpper ("INFO") ≠ ("ERROR") ∧ pyUpper ("INFO") ≠ ("FATAL") ∧
      pyUpper ("INFO") ≠ ("CRITICAL") ∧
      rule_critical_score (pyLower ("panic crash")) ≥ 0.4) ∧
    rule_detect_one ("INFO") ("panic crash") {} = (true, 0.9) := by
  have hs : rule_critical_score (pyLower ("panic crash")) ≥ 0.4 := by
    norm_num +decide [rule_critical_score, rule_critical_keywords, List.foldl]
  have h := rule2_weighted_count ("INFO") ("panic crash") {}
    (by decide) (by decide) (by decide) hs
  refine ⟨⟨by decide, by decide, by decide, hs⟩, ?_⟩
  rw [h]
  norm_num +decide [rule_critical_score, rule_critical_keywords, List.foldl]

/-! ## Claims C4 and C9: batch shape and the empty batch -/

/-- Read-back of the Rule Scorer verdict of one processed record with a
non-null level, used to state the per-index correspondence of C4. -/
def rule_of (log : ProcessedLog) : Bool × ℚ :=
  rule_detect_one ((log.level).getD ("")) log.message log.features

theorem getD_map_lt {α β : Type} (f : α → β) (l : List α) (i : Nat) (d : β)
    (d' : α) (h : i < l.length) : (l.map f).getD i d = f (l.getD i d') := by
  rw [List.getD_eq_getElem?_getD, List.getD_eq_getElem?_getD, List.getElem?_map,
    List.getElem?_eq_getElem h]
  simp

theorem rule_loop_length : ∀ (logs : List ProcessedLog) (pairs : List (Bool × ℚ)),
    rule_loop logs = Except.ok pairs → pairs.length = logs.length
  | [], pairs, h => by
    simp [rule_loop] at h
    simp [← h]
  | log :: rest, pairs, h => by
    cases hlv : log.level with
    | none => simp [rule_loop, hlv] at h
    | some lv =>
      cases hr : rule_loop rest with
      | error e => simp [rule_loop, hlv, hr] at h
      | ok tail =>
        simp [rule_loop, hlv, hr] at h
        simp [← h, rule_loop_length rest tail hr]

theorem rule_loop_ok_of_levels : ∀ (logs : List ProcessedLog),
    (∀ l ∈ logs, (l.level).isSome) →
    rule_loop logs = Except.ok (logs.map rule_of)
  | [], _ => rfl
  | log :: rest, h => by
    obtain ⟨lv, hlv⟩ :=
      Option.isSome_iff_exists.mp (h log (List.mem_cons_self log rest))
    have ih := rule_loop_ok_of_levels rest (fun l hm => h l (List.mem_cons_of_mem log hm))
    simp [rule_loop, hlv, ih, rule_of]

/-- Claim C4: for every batch — whatever the ML oracle returns, shorter
lists included, and even when the rule pass raises — `detect_anomalies`
returns `is_anomaly` and `scores` lists of exactly the batch length;
and on the normal path entry `i` is the combiner merge of the Rule
Scorer verdict of record `i` with the ML entry `i` (order preserved). -/
theorem detect_anomalies_length_order {M S : Type} (ml : MLOracle M S)
    (st : DetectorState M S) (logs : List ProcessedLog) :
    (((detect_anomalies ml st logs).1.is_anomaly.length = logs.length) ∧
      ((detect_anomalies ml st logs).1.scores.length = logs.length)) ∧
    ((∀ l ∈ logs, (l.level).isSome) → ∀ i, i < logs.length →
      ((detect_anomalies ml st logs).1.is_anomaly.getD i false,
        (detect_anomalies ml st logs).1.scores.getD i 0) =
        combinerSpec (rule_of (logs.getD i {})).1 (rule_of (logs.getD i {})).2
          ((ml st logs).1.is_anomaly.getD i false)
          ((ml st logs).1.scores.getD i 0)) := by
  by_cases hE : logs.isEmpty
  · have hnil : logs = [] := List.isEmpty_iff.mp hE
    subst hnil
    constructor
    · simp [detect_anomalies]
    · intro _ i hi
      exact absurd hi (by simp)
  · cases hl : rule_loop logs with
    | error e =>
      constructor
      · simp [detect_anomalies, hE, rule_based_detection, hl, get_default_results]
      · intro hlevels i hi
        rw [rule_loop_ok_of_levels logs hlevels] at hl
        exact absurd hl (by simp)
    | ok pairs =>
      have hlen := rule_loop_length logs pairs hl
      constructor
      · simp [detect_anomalies, hE, rule_based_detection, hl, combine_results, hlen]
      · intro hlevels i hi
        have hp : pairs = logs.map rule_of := by
          have h2 := rule_loop_ok_of_levels logs hlevels
          rw [hl] at h2
          simpa using h2
        subst hp
        have hi1 : i < ((logs.map rule_of).map Prod.fst).length := by simp [hi]
        have hi2 : i < (logs.map rule_of).length := by simp [hi]
        have hcomb : detect_anomalies ml st logs =
            (combine_results
              (DetectResult.mk ((logs.map rule_of).map Prod.fst)
                ((logs.map rule_of).map Prod.snd))
              (ml st logs).1,
             (ml st logs).2) := by
          simp [detect_anomalies, hE, rule_based_detection, hl]
        rw [hcomb]
        simp only [combine_results]
        rw [getD_map_range _ _ _ _ (by simpa using hi),
          getD_map_range _ _ _ _ (by simpa using hi), combine_at_eq_spec]
        rw [getD_map_lt Prod.fst (logs.map rule_of) i false (rule_of {}) hi2,
          getD_map_lt Prod.snd (logs.map rule_of) i 0 (rule_of {}) hi2,
          getD_map_lt rule_of logs i (rule_of {}) {} hi]

/-- Witness fixtures for C4: a two-record batch and an ML oracle that
returns lists shorter than the batch. -/
def plogA : ProcessedLog := { level := some ("ERROR"), message := "boom" }

def plogB : ProcessedLog := { level := some ("INFO"), message := "all good" }

def mlShort : MLOracle Unit Unit :=
  fun st _ => ({ is_anomaly := [true], scores := [0.8] }, st)

def stUnit : DetectorState Unit Unit :=
  { model := (), scaler := (), is_fitted := false }

/-- Witness for C4 at index 1 of a two-record batch whose ML lists have
length 1. -/
theorem detect_anomalies_length_order_witness :
    ((∀ l ∈ [plogA, plogB], (l.level).isSome) ∧
      1 < ([plogA, plogB] : List ProcessedLog).length) ∧
    ((detect_anomalies mlShort stUnit [plogA, plogB]).1.is_anomaly.getD 1 false,
      (detect_anomalies mlShort stUnit [plogA, plogB]).1.scores.getD 1 0) =
      combinerSpec (rule_of ([plogA, plogB].getD 1 {})).1
        (rule_of ([plogA, plogB].getD 1 {})).2
        ((mlShort stUnit [plogA, plogB]).1.is_anomaly.getD 1 false)
        ((mlShort stUnit [plogA, plogB]).1.scores.getD 1 0) :=
  ⟨⟨by decide, by decide⟩,
    (detect_anomalies_length_order mlShort stUnit [plogA, plogB]).2
      (by decide) 1 (by decide)⟩

/-- Claim C9: on the empty batch `detect_anomalies` returns empty
`is_anomaly` and `scores` lists immediately and the detector state —
fitted flag, model and scaler — is returned unchanged; the ML oracle
(and hence any lazy fitting) is never invoked, for every oracle. -/
theorem detect_anomalies_empty_batch {M S : Type} (ml : MLOracle M S)
    (st : DetectorState M S) :
    detect_anomalies ml st [] = ({ is_anomaly := [], scores := [] }, st) := rfl

/-! ## Claim C5: the analysis-worthiness gate -/

/-- A concrete match oracle (no category matches) for closed
statements. -/
def gammaNil : MatchOracle := fun _ => []

/-- Claim C5: for a record with a (string) level value, the Root-Cause
Classifier analyzes it iff the upper-cased level is ERROR, FATAL or
CRITICAL or the error-keyword feature flag is set — in that case
`analyze` is the full post-gate pipeline `analyze_body` — and otherwise
it returns empty root-cause and recommendation lists. -/
theorem analyze_gate (γ : MatchOracle) (log : LogRecord) (features : Features)
    (lv : String) (h : log.level = some lv) :
    analyze γ log features =
      (if (pyUpper lv = ("ERROR") ∨ pyUpper lv = ("FATAL") ∨
            pyUpper lv = ("CRITICAL")) ∨ features.has_error_keywords then
        analyze_body (γ (pyLower log.message)) (pyLower log.message) (pyUpper lv)
          log.source features
      else { root_causes := [], recommendations := [] }) := by
  by_cases hw : (pyUpper lv = ("ERROR") ∨ pyUpper lv = ("FATAL") ∨
      pyUpper lv = ("CRITICAL")) ∨ features.has_error_keywords
  · rw [if_pos hw]
    have hb : ((pyUpper lv == ("ERROR") || pyUpper lv == ("FATAL") ||
        pyUpper lv == ("CRITICAL")) || features.has_error_keywords) = true := by
      rcases hw with (h1 | h1 | h1) | h1 <;> simp [h1]
    simp [analyze, analyzeCore, h, hb]
  · rw [if_neg hw]
    have hb : ((pyUpper lv == ("ERROR") || pyUpper lv == ("FATAL") ||
        pyUpper lv == ("CRITICAL")) || features.has_error_keywords) = false := by
      push_neg at hw
      simp [hw.1.1, hw.1.2.1, hw.1.2.2, hw.2]
    simp [analyze, analyzeCore, h, hb]

/-- Witness for C5 on the spec's scenario 2: an INFO-level record with an
empty message and no error-keyword flag gets empty lists. -/
theorem analyze_gate_witness :
    (({ level := some ("INFO"), message := "" } : LogRecord).level = some ("INFO")) ∧
    analyze gammaNil { level := some ("INFO"), message := "" } {} =
      (if (pyUpper ("INFO") = ("ERROR") ∨ pyUpper ("INFO") = ("FATAL") ∨
            pyUpper ("INFO") = ("CRITICAL")) ∨ ({} : Features).has_error_keywords then
        analyze_body (gammaNil (pyLower (""))) (pyLower (""))
          (pyUpper ("INFO")) ("") {}
      else { root_causes := [], recommendations := [] }) :=
  ⟨rfl, analyze_gate gammaNil { level := some ("INFO"), message := "" } {} ("INFO") rfl⟩

/-! ## Claim C6: deduplication, cap at 4, and the exception path -/

theorem dedupFirstAux_sublist : ∀ (l seen : List String),
    (dedupFirstAux seen l).Sublist l
  | [], _ => List.Sublist.refl []
  | x :: xs, seen => by
    by_cases h : seen.contains x
    · simp only [dedupFirstAux, h, if_true]
      exact (dedupFirstAux_sublist xs seen).cons x
    · simp only [dedupFirstAux, h, if_false]
      exact (dedupFirstAux_sublist xs (x :: seen)).cons₂ x

theorem dedupFirstAux_nodup : ∀ (l seen : List String),
    (∀ x ∈ dedupFirstAux seen l, x ∉ seen) ∧ (dedupFirstAux seen l).Nodup
  | [], _ => by simp [dedupFirstAux]
  | x :: xs, seen => by
    by_cases h : seen.contains x
    · simp only [dedupFirstAux, h, if_true]
      exact dedupFirstAux_nodup xs seen
    · simp only [dedupFirstAux, h, if_false]
      obtain ⟨hmem, hnd⟩ := dedupFirstAux_nodup xs (x :: seen)
      constructor
      · intro y hy hys
        rcases List.mem_cons.mp hy with rfl | hy2
        · exact h (by simpa using hys)
        · exact hmem y hy2 (List.mem_cons_of_mem _ hys)
      · refine List.nodup_cons.mpr ⟨?_, hnd⟩
        intro hx
        exact hmem x hx (List.mem_cons_self _ _)

theorem dedupFirst_nodup (l : List String) : (dedupFirst l).Nodup :=
  (dedupFirstAux_nodup l []).2

theorem dedupFirst_sublist (l : List String) : (dedupFirst l).Sublist l :=
  dedupFirstAux_sublist l []

theorem analyze_body_bounds (matched : List (ErrCat × ℚ))
    (message level source : String) (features : Features) :
    (analyze_body matched message level source features).root_causes.Nodup ∧
    (analyze_body matched message level source features).root_causes.length ≤ 4 ∧
    (analyze_body matched message level source features).recommendations.Nodup ∧
    (analyze_body matched message level source features).recommendations.length ≤ 4 := by
  refine ⟨?_, ?_, ?_, ?_⟩ <;> simp only [analyze_body]
  · exact List.Nodup.sublist (List.take_sublist _ _) (dedupFirst_nodup _)
  · exact List.length_take_le _ _
  · exact List.Nodup.sublist (List.take_sublist _ _) (dedupFirst_nodup _)
  · exact List.length_take_le _ _

/-- Claim C6: for every record, feature dictionary and oracle behaviour,
the root-cause and recommendation lists returned by `analyze` are free
of duplicates (first occurrence kept, since `dedupFirst` is an
order-preserving sublist) and have at most 4 entries; and whenever the
pipeline raises, `analyze` returns the generic pair instead of
propagating, so the invariant holds on the error path too. -/
theorem analyze_lists_bounded (γ : MatchOracle) (log : LogRecord)
    (features : Features) :
    ((analyze γ log features).root_causes.Nodup ∧
      (analyze γ log features).root_causes.length ≤ 4 ∧
      (analyze γ log features).recommendations.Nodup ∧
      (analyze γ log features).recommendations.length ≤ 4) ∧
    (∀ e, analyzeCore γ log features = Except.error e →
      analyze γ log features = genericPair) := by
  constructor
  · cases hc : analyzeCore γ log features with
    | error e => simp [analyze, hc, genericPair]
    | ok r =>
      have ha : analyze γ log features = r := by simp [analyze, hc]
      rw [ha]
      cases hlv : log.level with
      | none => simp [analyzeCore, hlv] at hc
      | some lv =>
        simp only [analyzeCore, hlv] at hc
        split at hc
        · obtain rfl : analyze_body (γ (pyLower log.message)) (pyLower log.message)
              (pyUpper lv) log.source features = r := by simpa using hc
          exact analyze_body_bounds _ _ _ _ _
        · obtain rfl : ({ root_causes := [], recommendations := [] } : RCResult) = r := by
            simpa using hc
          simp
  · intro e he
    simp [analyze, he]

/-- A record with a null level value: the `.upper()` call inside
`analyze` raises and the handler returns the generic pair. -/
def logNullLevel : LogRecord := { level := none, message := "x" }

/-- Witness for C6 on the exception path: the null-level record makes the
pipeline raise and `analyze` returns the generic pair (whose lists
satisfy the invariant). -/
theorem analyze_lists_bounded_witness :
    (analyzeCore gammaNil logNullLevel {} = Except.error ()) ∧
    analyze gammaNil logNullLevel {} = genericPair :=
  ⟨rfl, (analyze_lists_bounded gammaNil logNullLevel {}).2 () rfl⟩

/-! ## Claim C8: source-affinity first-match lookup -/

theorem analyze_by_source_loop_eq_find (s m : String) :
    ∀ gs : List SourceGroup,
      analyze_by_source_loop s m gs =
        (gs.find? (fun g => group_matches g s m)).map
          (fun g => (g.causes, g.recommendations))
  | [] => rfl
  | g :: rest => by
    by_cases h : group_matches g s m
    · simp [analyze_by_source_loop, List.find?_cons, h]
    · simp [analyze_by_source_loop, List.find?_cons, h,
        analyze_by_source_loop_eq_find s m rest]

/-- Claim C8: `_analyze_by_source` tries the fixed keyword groups in
declared order (auth, database, payment, api) against the lower-cased
source and message; the first group with any keyword present contributes
exactly its fixed cause/recommendation pair and no later group is tried
(demonstrated on a source matching both the auth and database groups);
if no group matches, nothing is contributed. -/
theorem source_affinity_first_match :
    (∀ source message, analyze_by_source source message =
      spec_source_affinity source message) ∧
    analyze_by_source ("authdb") ("") =
      some (["Authentication service issue", "User session problem"],
        ["Check authentication service health", "Verify user session management"]) ∧
    analyze_by_source ("web-frontend") ("hello world") = none := by
  refine ⟨?_, by decide, by decide⟩
  intro source message
  unfold analyze_by_source spec_source_affinity
  exact analyze_by_source_loop_eq_find _ _ _

/-! ## Claim C7: per-record fallback of the Feature Extractor -/

/-- The processed record that the fallback path actually produces for a
record with a string level: the cleaned message is the raw message, the
`message_length` and `level_numeric` features are computed from the
record, and the remaining numeric/boolean features hold the 0 / `false`
defaults. -/
def fallbackResult (log : LogRecord) : ProcessedLog :=
  { id := log.id
    timestamp := log.timestamp
    level := log.level
    message := log.message
    source := log.source
    cleaned_message := log.message
    features :=
      { message_length := log.message.length
        level_numeric := level_to_numeric ((log.level).getD ("")) }
    normalized_timestamp := (log.timestamp).getD ("")
    patterns := [] }

/-- The per-record outcome of `LogPreprocessor.process`: the processed
record on success, the fallback on a caught exception. -/
def proc_one (ora : PyOracles) (l : LogRecord) : ProcessedLog :=
  match process_single_log ora l with
  | Except.ok p => p
  | Except.error _ => fallbackResult l

theorem create_fallback_eq (log : LogRecord) (lv : String)
    (h : log.level = some lv) :
    create_fallback_log log = Except.ok (fallbackResult log) := by
  simp [create_fallback_log, fallbackResult, h]

theorem process_ok_of_levels (ora : PyOracles) : ∀ (logs : List LogRecord),
    (∀ l ∈ logs, (l.level).isSome) →
    process ora logs = Except.ok (logs.map (proc_one ora))
  | [], _ => rfl
  | log :: rest, h => by
    obtain ⟨lv, hlv⟩ :=
      Option.isSome_iff_exists.mp (h log (List.mem_cons_self log rest))
    have ih := process_ok_of_levels ora rest
      (fun l hm => h l (List.mem_cons_of_mem log hm))
    cases hp : process_single_log ora log with
    | ok p => simp [process, hp, ih, proc_one]
    | error e => simp [process, hp, ih, proc_one, create_fallback_eq log lv hlv]

/-- The record used in the counterexample and witness for C7: its
`timestamp` key is missing, so `_process_single_log` raises, but its
message and level are non-trivial. -/
def fallbackDemoRecord : LogRecord :=
  { id := "1", timestamp := none, level := some ("ERROR"),
    message := "abc", source := "svc" }

/-- A record the Feature Extractor processes normally. -/
def goodDemoRecord : LogRecord :=
  { id := "2", timestamp := some ("t0"), level := some ("INFO"),
    message := "ok", source := "svc" }

/-- Counterexample to C7 as stated: for the record with a missing
timestamp, level ERROR and message `abc`, extraction raises and the
fallback is substituted — but its feature dictionary is not all-zero:
`message_length` is 3 and `level_numeric` is 8, contradicting the
claimed zeroed numeric fields. -/
theorem fallback_not_zeroed :
    process_single_log oracleZero fallbackDemoRecord = Except.error () ∧
    process oracleZero [fallbackDemoRecord] =
      Except.ok [fallbackResult fallbackDemoRecord] ∧
    (fallbackResult fallbackDemoRecord).features.message_length = 3 ∧
    (fallbackResult fallbackDemoRecord).features.level_numeric = 8 ∧
    (3 : Nat) ≠ 0 ∧ (8 : Nat) ≠ 0 := by
  refine ⟨rfl, ?_, rfl, by decide, by decide, by decide⟩
  have h := process_ok_of_levels oracleZero [fallbackDemoRecord] (by decide)
  rw [h]
  have hpe : process_single_log oracleZero fallbackDemoRecord = Except.error () := rfl
  simp [proc_one, hpe]

/-- Claim C7 as amended: for every batch of records with string levels,
`process` never aborts: it returns one processed record per input in
order; a record whose extraction raises receives the fallback — cleaned
message = raw message, `message_length` = len(raw message),
`level_numeric` computed from the level, all other numeric features
zero and boolean features false — and every other record is processed
normally. -/
theorem process_degrades_per_record (ora : PyOracles) (logs : List LogRecord)
    (hl : ∀ l ∈ logs, (l.level).isSome) :
    ∃ res, process ora logs = Except.ok res ∧ res.length = logs.length ∧
      ∀ i, i < logs.length →
        (∀ p, process_single_log ora (logs.getD i {}) = Except.ok p →
          res.getD i {} = p) ∧
        (∀ e, process_single_log ora (logs.getD i {}) = Except.error e →
          res.getD i {} = fallbackResult (logs.getD i {})) := by
  refine ⟨logs.map (proc_one ora), process_ok_of_levels ora logs hl, by simp, ?_⟩
  intro i hi
  constructor
  · intro p hp
    rw [getD_map_lt (proc_one ora) logs i {} {} hi]
    simp only [proc_one]
    rw [hp]
  · intro e he
    rw [getD_map_lt (proc_one ora) logs i {} {} hi]
    simp only [proc_one]
    rw [he]

/-- Witness for C7 (amended) on a two-record batch: the first record is
processed normally, the second (missing timestamp) gets the fallback. -/
theorem process_degrades_per_record_witness :
    (∀ l ∈ [goodDemoRecord, fallbackDemoRecord], (l.level).isSome) ∧
    (∃ res, process oracleZero [goodDemoRecord, fallbackDemoRecord] = Except.ok res ∧
      res.length = ([goodDemoRecord, fallbackDemoRecord] : List LogRecord).length ∧
      ∀ i, i < ([goodDemoRecord, fallbackDemoRecord] : List LogRecord).length →
        (∀ p, process_single_log oracleZero
            ([goodDemoRecord, fallbackDemoRecord].getD i {}) = Except.ok p →
          res.getD i {} = p) ∧
        (∀ e, process_single_log oracleZero
            ([goodDemoRecord, fallbackDemoRecord].getD i {}) = Except.error e →
          res.getD i {} = fallbackResult ([goodDemoRecord, fallbackDemoRecord].getD i {}))) :=
  ⟨by decide,
    process_degrades_per_record oracleZero [goodDemoRecord, fallbackDemoRecord] (by decide)⟩

/-! ## Claim C10: case-insensitive level handling -/

/-- Claim C10: the severity-weight mapping, the Rule Scorer's per-record
decision list, and the Root-Cause Classifier produce the same output for
a level string `l` as for `upper(l)` — each upper-cases the level before
every use, so level handling is case-insensitive throughout. -/
theorem level_case_insensitive :
    (∀ level : String, level_to_numeric level = level_to_numeric (pyUpper level)) ∧
    (∀ (rawLevel message : String) (features : Features),
      rule_detect_one rawLevel message features =
        rule_detect_one (pyUpper rawLevel) message features) ∧
    (∀ (γ : MatchOracle) (i ts msg src lv : String) (features : Features),
      analyze γ (LogRecord.mk i (some ts) (some lv) msg src) features =
        analyze γ (LogRecord.mk i (some ts) (some (pyUpper lv)) msg src) features) := by
  refine ⟨?_, ?_, ?_⟩
  · intro level
    simp [level_to_numeric, pyUpper_idem]
  · intro rawLevel message features
    simp [rule_detect_one, pyUpper_idem]
  · intro γ i ts msg src lv features
    simp [analyze, analyzeCore, pyUpper_idem]
